import Mathlib

/-!
Verification of the Olsen-Randerson temporal-downscaling library.

The library downscales monthly biogenic carbon fluxes to a finer time
step.  The fixed-window engine (`olsen_randerson_gpp_once`,
`olsen_randerson_resp_once`, `olsen_randerson_once` in
`src/olsen_randerson/__init__.py`) works on one coarse period at a
time; the continuous-time engine (`downscale_gpp_timeseries`,
`downscale_resp_timeseries`, `downscale_timeseries` in
`src/olsen_randerson/fisher.py`) works on datetime-indexed series with
trailing 30-day rolling windows.

Modelling choices
  * numpy arrays over the leading (time) axis become `List ℝ`; scalar
    coarse fluxes become `ℝ`.  All trailing (spatial) axes act
    elementwise and independently, so a single column is modelled.
  * floating-point arithmetic is modelled by exact real arithmetic;
    `x / 0` is Lean's total division (numpy would yield NaN/Inf with a
    warning, it raises no error either).
  * `numpy.ndarray.mean(axis=0)` becomes `mean`, sum divided by length.
  * for the continuous-time engine, time is measured in whole days
    (`ℕ`), the fine series are daily (the frequency used by the
    package's own tests), a coarse series is a list of (day, value)
    pairs in increasing-day order, and calendar months are modelled as
    30-day blocks starting at day 0.  Pandas index alignment is
    modelled for the documented usage in which the coarse index spans
    exactly the fine range.
-/

namespace OlsenRanderson

noncomputable section

/-- Module constant `NPP_TO_GPP_FACTOR = 2` of `__init__.py`. -/
def NPP_TO_GPP_FACTOR : ℝ := 2

/-- Module constant `Q10 = 1.5` of `__init__.py`. -/
def Q10 : ℝ := 1.5

/-- Module constant `T0 = 30` of `__init__.py`. -/
def T0 : ℝ := 30

/-- `xs.mean(axis=0)` for a 1-D numpy array: sum over the leading axis
divided by its length (`0 / 0 = 0` for the empty list, where numpy
would give NaN). -/
def mean (xs : List ℝ) : ℝ := xs.sum / xs.length

/-- `olsen_randerson_gpp_once(flux_gpp, par)`
(`__init__.py` lines 137-138):
`par_total = par.mean(axis=0); return (flux_gpp / par_total) * par`. -/
def olsen_randerson_gpp_once (flux_gpp : ℝ) (par : List ℝ) : List ℝ :=
  par.map (fun p => flux_gpp / mean par * p)

/-- The temperature response `Q10 ** ((temperature - t0) / 10)` of
`olsen_randerson_resp_once`, with the baseline temperature `t0` kept
as an explicit parameter so that independence from the module constant
`T0` can be stated.  `respScalingT T0` is the source's expression. -/
def respScalingT (t0 t : ℝ) : ℝ := Q10 ^ ((t - t0) / 10)

/-- `olsen_randerson_resp_once` with the baseline temperature as an
explicit parameter; the source function is this at `t0 = T0`. -/
def olsen_randerson_resp_once_T0 (t0 flux_resp : ℝ) (temperature : List ℝ) :
    List ℝ :=
  let resp_scaling := temperature.map (respScalingT t0)
  resp_scaling.map (fun q => flux_resp / mean resp_scaling * q)

/-- `olsen_randerson_resp_once(flux_resp, temperature)`
(`__init__.py` lines 171-173):
`resp_scaling = Q10 ** ((temperature - T0) / 10);
resp_total = resp_scaling.mean(axis=0);
return (flux_resp / resp_total) * resp_scaling`. -/
def olsen_randerson_resp_once (flux_resp : ℝ) (temperature : List ℝ) :
    List ℝ :=
  olsen_randerson_resp_once_T0 T0 flux_resp temperature

/-- `olsen_randerson_once(flux_npp, flux_rh, temperature, par)`
(`__init__.py` lines 82-97): estimate GPP as
`NPP_TO_GPP_FACTOR * flux_npp`, downscale it against PAR, downscale
`estimated_gpp - flux_npp + flux_rh` against temperature, and return
`flux_gpp - flux_resp` elementwise.  The source asserts
`par.shape == temperature.shape`; the elementwise difference is
modelled by `List.zipWith`, which agrees with the source exactly on
equal-length inputs. -/
def olsen_randerson_once (flux_npp flux_rh : ℝ) (temperature par : List ℝ) :
    List ℝ :=
  let estimated_gpp := NPP_TO_GPP_FACTOR * flux_npp
  List.zipWith (fun a b => a - b)
    (olsen_randerson_gpp_once estimated_gpp par)
    (olsen_randerson_resp_once (estimated_gpp - flux_npp + flux_rh)
      temperature)

namespace Fisher

/-- Ternary pointwise combination of three equal-length lists; models
the elementwise broadcast expression `a / b * c` on three aligned
pandas columns. -/
def zipWith3 {α β γ δ : Type} (f : α → β → γ → δ) :
    List α → List β → List γ → List δ
  | a :: as, b :: bs, c :: cs => f a b c :: zipWith3 f as bs cs
  | _, _, _ => []

/-- `series.rolling("30D", min_periods=1).mean()` on a daily series:
entry `i` is the mean of the entries for the 30 days ending at and
including day `i` (pandas' trailing window, clipped at the start of
the series; for a time-based window pandas' default `min_periods` is
also 1, so the same model covers the `rolling("30D").mean()` calls). -/
def rollingMean30 (xs : List ℝ) : List ℝ :=
  (List.range xs.length).map (fun i => mean ((xs.take (i + 1)).drop (i + 1 - 30)))

/-- `coarse.resample("1D").interpolate(method="time")` evaluated at
day `d`: time-weighted linear interpolation between the bracketing
coarse points (exact at coarse days).  Pandas produces values only
between the first and last coarse day; the functions below evaluate it
on fine days, which lie in that span in the documented usage. -/
def interpAt : List (ℕ × ℝ) → ℕ → ℝ
  | [], _ => 0
  | [(_, v)], _ => v
  | (d0, v0) :: (d1, v1) :: rest, d =>
      if d ≤ d1 then v0 + (v1 - v0) * (((d : ℝ) - (d0 : ℝ)) / ((d1 : ℝ) - (d0 : ℝ)))
      else interpAt ((d1, v1) :: rest) d

/-- Pointwise arithmetic on two coarse frames with the same index
(pandas aligns on the index; the frames combined in
`downscale_timeseries` share one coarse index). -/
def coarseZip (f : ℝ → ℝ → ℝ) (xs ys : List (ℕ × ℝ)) : List (ℕ × ℝ) :=
  List.zipWith (fun p q => (p.1, f p.2 q.2)) xs ys

/-- Start day of the 30-day block (the model's calendar month)
containing day `d`. -/
def monthStart (d : ℕ) : ℕ := 30 * (d / 30)

/-- Helper for `resampleMonthStartFirst`: keep the first entry of each
run of points sharing a month, skipping entries whose month equals the
accumulator. -/
def resampleFirstAux : Option ℕ → List (ℕ × ℝ) → List (ℕ × ℝ)
  | _, [] => []
  | cur, (d, v) :: rest =>
      if cur = some (monthStart d) then resampleFirstAux cur rest
      else (monthStart d, v) :: resampleFirstAux (some (monthStart d)) rest

/-- `series.resample("1MS").first()`: one entry per month, indexed at
the month start, holding the first value of the month (the coarse
index is increasing, so each month's points are consecutive). -/
def resampleMonthStartFirst (xs : List (ℕ × ℝ)) : List (ℕ × ℝ) :=
  resampleFirstAux none xs

/-- `series.resample("1D").ffill()` evaluated at day `d`: the value of
the last coarse point at or before `d` (the first value for days
before the first point, where pandas would give NaN; the usage below
starts at the first coarse day). -/
def ffillAt : List (ℕ × ℝ) → ℕ → ℝ
  | [], _ => 0
  | [(_, v)], _ => v
  | (_, v0) :: (d1, v1) :: rest, d =>
      if d < d1 then v0 else ffillAt ((d1, v1) :: rest) d

/-- `downscale_gpp_timeseries(flux_gpp, par)` (`fisher.py`): 30-day
trailing rolling mean of PAR, coarse GPP interpolated onto the fine
(daily) index, output `flux_gpp_baseline / par_mean * par`. -/
def downscale_gpp_timeseries (flux_gpp : List (ℕ × ℝ)) (par : List ℝ) :
    List ℝ :=
  let par_mean := rollingMean30 par
  let flux_gpp_baseline := (List.range par.length).map (fun d => interpAt flux_gpp d)
  zipWith3 (fun b m p => b / m * p) flux_gpp_baseline par_mean par

/-- `downscale_resp_timeseries` with the baseline temperature as an
explicit parameter; the source function is this at `t0 = T0`. -/
def downscale_resp_timeseries_T0 (t0 : ℝ) (flux_resp : List (ℕ × ℝ))
    (temperature : List ℝ) : List ℝ :=
  let resp_scaling := temperature.map (respScalingT t0)
  let resp_mean := rollingMean30 resp_scaling
  let flux_resp_baseline :=
    (List.range temperature.length).map (fun d => interpAt flux_resp d)
  zipWith3 (fun b m q => b / m * q) flux_resp_baseline resp_mean resp_scaling

/-- `downscale_resp_timeseries(flux_resp, temperature)` (`fisher.py`
lines 154-165): `resp_scaling = Q10 ** ((temperature - T0) / 10)`,
30-day trailing rolling mean, coarse respiration interpolated onto the
fine index, output `flux_resp_baseline / resp_mean * resp_scaling`. -/
def downscale_resp_timeseries (flux_resp : List (ℕ × ℝ))
    (temperature : List ℝ) : List ℝ :=
  downscale_resp_timeseries_T0 T0 flux_resp temperature

/-- `downscale_timeseries(flux_npp, flux_rh, temperature, par)`
(`fisher.py` lines 67-84): downscale `2 * flux_npp` against PAR and
`estimated_gpp - flux_npp + flux_rh` against temperature, set
`downscaled_nee = flux_resp - flux_gpp` and
`original_nee = (flux_npp - flux_rh).resample("1MS").first()`, and add
the difference of the 30-day trailing rolling means of
`downscaled_nee` and of `original_nee` forward-filled onto the fine
index (the source's trailing `.loc[par.index[0]:par.index[-1]]` slice
is the fine range itself when the coarse index spans it, as here). -/
def downscale_timeseries (flux_npp flux_rh : List (ℕ × ℝ))
    (temperature par : List ℝ) : List ℝ :=
  let estimated_gpp := flux_npp.map (fun p => (p.1, NPP_TO_GPP_FACTOR * p.2))
  let flux_gpp := downscale_gpp_timeseries estimated_gpp par
  let flux_resp := downscale_resp_timeseries
    (coarseZip (fun a b => a + b)
      (coarseZip (fun a b => a - b) estimated_gpp flux_npp) flux_rh)
    temperature
  let downscaled_nee := List.zipWith (fun a b => a - b) flux_resp flux_gpp
  let original_nee :=
    resampleMonthStartFirst (coarseZip (fun a b => a - b) flux_npp flux_rh)
  let original_fine := (List.range par.length).map (fun d => ffillAt original_nee d)
  let difference := List.zipWith (fun a b => a - b)
    (rollingMean30 downscaled_nee) (rollingMean30 original_fine)
  List.zipWith (fun a b => a + b) downscaled_nee difference

end Fisher

end

end OlsenRanderson

namespace OlsenRanderson

theorem mean_nil : mean [] = 0 := by
  simp [mean]

theorem sum_map_const_mul (c : ℝ) (xs : List ℝ) :
    (xs.map (fun x => c * x)).sum = c * xs.sum := by
  induction xs with
  | nil => simp
  | cons a as ih => simp [ih, mul_add]

theorem sum_eq_length_mul_mean (xs : List ℝ) (h : xs ≠ []) :
    xs.sum = xs.length * mean xs := by
  have hlen : (xs.length : ℝ) ≠ 0 := by
    simpa using List.length_pos.mpr h |>.ne'
  field_simp [mean]

theorem mean_pos (xs : List ℝ) (h : xs ≠ []) (hpos : ∀ x ∈ xs, 0 < x) :
    0 < mean xs := by
  have hsum : 0 < xs.sum := List.sum_pos xs hpos h
  have hlen : (0 : ℝ) < xs.length := by
    exact_mod_cast List.length_pos.mpr h
  exact div_pos hsum hlen

theorem mean_nonneg (xs : List ℝ) (hpos : ∀ x ∈ xs, 0 ≤ x) :
    0 ≤ mean xs := by
  have hsum : 0 ≤ xs.sum := List.sum_nonneg hpos
  have hlen : (0 : ℝ) ≤ xs.length := by positivity
  exact div_nonneg hsum hlen

theorem respScalingT_pos (t0 t : ℝ) : 0 < respScalingT t0 t := by
  have : (0 : ℝ) < Q10 := by norm_num [Q10]
  exact Real.rpow_pos_of_pos this _

/-- Renormalisation identity shared by both `_once` scalers: mapping
`x ↦ f / mean xs * x` over a nonempty `xs` with nonzero mean sums to
`length * f`. -/
theorem sum_scaled (f : ℝ) (xs : List ℝ) (hm : mean xs ≠ 0) :
    (xs.map (fun x => f / mean xs * x)).sum = xs.length * f := by
  have hne : xs ≠ [] := by
    intro h
    rw [h] at hm
    exact hm mean_nil
  rw [sum_map_const_mul, sum_eq_length_mul_mean xs hne]
  field_simp
  ring

theorem mean_respScalingT_pos (t0 : ℝ) (T : List ℝ) (h : T ≠ []) :
    0 < mean (T.map (respScalingT t0)) := by
  apply mean_pos
  · simpa using h
  · intro x hx
    obtain ⟨t, _, rfl⟩ := List.mem_map.mp hx
    exact respScalingT_pos t0 t

/-- The respiration scaler conserves unconditionally: the Q10 response
is strictly positive, so its mean is nonzero for any nonempty
temperature list (and the empty list gives the empty output). -/
theorem resp_once_T0_sum (t0 f : ℝ) (T : List ℝ) :
    (olsen_randerson_resp_once_T0 t0 f T).sum = T.length * f := by
  by_cases h : T = []
  · subst h
    simp [olsen_randerson_resp_once_T0]
  · have hm : mean (T.map (respScalingT t0)) ≠ 0 :=
      (mean_respScalingT_pos t0 T h).ne'
    have hs := sum_scaled f (T.map (respScalingT t0)) hm
    simpa [olsen_randerson_resp_once_T0] using hs

theorem gpp_once_sum (f : ℝ) (par : List ℝ) (hm : mean par ≠ 0) :
    (olsen_randerson_gpp_once f par).sum = par.length * f :=
  sum_scaled f par hm

theorem resp_once_sum (f : ℝ) (T : List ℝ) :
    (olsen_randerson_resp_once f T).sum = T.length * f :=
  resp_once_T0_sum T0 f T

theorem gpp_once_length (f : ℝ) (par : List ℝ) :
    (olsen_randerson_gpp_once f par).length = par.length := by
  simp [olsen_randerson_gpp_once]

theorem resp_once_length (f : ℝ) (T : List ℝ) :
    (olsen_randerson_resp_once f T).length = T.length := by
  simp [olsen_randerson_resp_once, olsen_randerson_resp_once_T0]

theorem sum_zipWith_sub (as bs : List ℝ) (h : as.length = bs.length) :
    (List.zipWith (fun a b => a - b) as bs).sum = as.sum - bs.sum := by
  induction as generalizing bs with
  | nil =>
    cases bs with
    | nil => simp
    | cons b bs => simp at h
  | cons a as ih =>
    cases bs with
    | nil => simp at h
    | cons b bs =>
      have h' : as.length = bs.length := by simpa using h
      simp [ih bs h']
      ring

theorem mean_map_const_mul (c : ℝ) (xs : List ℝ) :
    mean (xs.map (fun x => c * x)) = c * mean xs := by
  simp [mean, sum_map_const_mul, mul_div_assoc]

/-- Cancellation of a common nonzero factor between numerator scale
and denominator mean; covers the degenerate `m = 0` case through
Lean's `x / 0 = 0` convention. -/
theorem div_scale_cancel (f c m q : ℝ) (hc : c ≠ 0) :
    f / (c * m) * (c * q) = f / m * q := by
  rcases eq_or_ne m 0 with h | h
  · simp [h]
  · field_simp
    ring

/-- C1: for nonnegative PAR with nonzero leading-axis mean and
nonnegative coarse GPP, `olsen_randerson_gpp_once` sums over the
leading axis to `N * flux_gpp`; `olsen_randerson_resp_once` likewise
sums to `N * flux_resp`. -/
theorem C1_fixed_window_conservation (flux_gpp flux_resp : ℝ)
    (par temperature : List ℝ) (hpar : ∀ p ∈ par, 0 ≤ p)
    (hg : 0 ≤ flux_gpp) (hm : mean par ≠ 0) :
    (olsen_randerson_gpp_once flux_gpp par).sum = par.length * flux_gpp ∧
    (olsen_randerson_resp_once flux_resp temperature).sum
      = temperature.length * flux_resp := by
  constructor
  · exact sum_scaled flux_gpp par hm
  · exact resp_once_T0_sum T0 flux_resp temperature

/-- Witness for C1 at coarse GPP 2, PAR `[0, 1, 1]`, coarse
respiration 1, temperature `[30, 30, 30]`. -/
theorem C1_fixed_window_conservation_witness :
    (olsen_randerson_gpp_once 2 [0, 1, 1]).sum = 3 * 2 ∧
    (olsen_randerson_resp_once 1 [30, 30, 30]).sum = 3 * 1 := by
  have h := C1_fixed_window_conservation 2 1 [0, 1, 1] [30, 30, 30]
    (by norm_num) (by norm_num) (by norm_num [mean])
  simpa using h

/-- C2: with temperature and PAR of equal length and nonzero PAR
mean, `olsen_randerson_once` sums over the leading axis to
`N * (flux_npp - flux_rh)`. -/
theorem C2_once_conservation (flux_npp flux_rh : ℝ)
    (temperature par : List ℝ) (hlen : temperature.length = par.length)
    (hm : mean par ≠ 0) :
    (olsen_randerson_once flux_npp flux_rh temperature par).sum
      = par.length * (flux_npp - flux_rh) := by
  unfold olsen_randerson_once
  rw [sum_zipWith_sub _ _ (by rw [gpp_once_length, resp_once_length, hlen])]
  rw [gpp_once_sum _ _ hm, resp_once_sum, hlen]
  unfold NPP_TO_GPP_FACTOR
  ring

/-- Witness for C2 at `flux_npp = 1`, `flux_rh = 0`, temperature
`[30, 30, 30]`, PAR `[0, 1, 1]`. -/
theorem C2_once_conservation_witness :
    (olsen_randerson_once 1 0 [30, 30, 30] [0, 1, 1]).sum = 3 * (1 - 0) := by
  have h := C2_once_conservation 1 0 [30, 30, 30] [0, 1, 1]
    (by norm_num) (by norm_num [mean])
  simpa using h

/-- C4 counterexample: with PAR uniformly zero, no error is signalled:
the PAR mean is 0, the division `flux_gpp / 0` is performed anyway
(NaN in IEEE arithmetic, 0 in this real-division model), and an
ordinary array is returned. -/
theorem C4_no_error_on_zero_par :
    mean [(0 : ℝ), 0, 0] = 0 ∧
    olsen_randerson_gpp_once 2 [0, 0, 0] = [0, 0, 0] := by
  constructor
  · simp [mean]
  · simp [olsen_randerson_gpp_once]

/-- C4 amended: `olsen_randerson_gpp_once` performs no degenerate-input
check.  For PAR uniformly zero the PAR mean is exactly 0 and the
function still returns an array (all zeros under real division, NaN
under IEEE), rather than raising an error; a nonzero PAR mean is a
caller obligation. -/
theorem C4_zero_par_divides_by_zero (flux_gpp : ℝ) (par : List ℝ)
    (h : ∀ p ∈ par, p = 0) :
    mean par = 0 ∧
    olsen_randerson_gpp_once flux_gpp par = List.replicate par.length 0 := by
  have hsum : par.sum = 0 := List.sum_eq_zero h
  constructor
  · simp [mean, hsum]
  · rw [List.eq_replicate_iff]
    refine ⟨by simp [olsen_randerson_gpp_once], ?_⟩
    intro b hb
    obtain ⟨p, hp, rfl⟩ := List.mem_map.mp hb
    rw [h p hp, mul_zero]

/-- Witness for the amended C4 at coarse GPP 2, PAR `[0, 0, 0]`. -/
theorem C4_zero_par_divides_by_zero_witness :
    mean [(0 : ℝ), 0, 0] = 0 ∧
    olsen_randerson_gpp_once 2 [0, 0, 0] = List.replicate 3 0 := by
  have h := C4_zero_par_divides_by_zero 2 [0, 0, 0] (by norm_num)
  simpa using h

/-- C6: the spec's worked respiration example holds on the code as
written (with the module constant `T0 = 30`): coarse respiration
`19/12` and temperature `[0, 10, 20]` give exactly
`[1, 1.5, 2.25]` — the baseline shift between `T0 = 10` and `T0 = 30`
cancels in the renormalisation. -/
theorem C6_worked_example :
    olsen_randerson_resp_once (19 / 12) [0, 10, 20] = [1, 3 / 2, 9 / 4] := by
  have h0 : respScalingT T0 0 = 8 / 27 := by
    unfold respScalingT T0 Q10
    rw [show ((0 : ℝ) - 30) / 10 = ((-3 : ℤ) : ℝ) by norm_num,
      Real.rpow_intCast]
    norm_num
  have h1 : respScalingT T0 10 = 4 / 9 := by
    unfold respScalingT T0 Q10
    rw [show ((10 : ℝ) - 30) / 10 = ((-2 : ℤ) : ℝ) by norm_num,
      Real.rpow_intCast]
    norm_num
  have h2 : respScalingT T0 20 = 2 / 3 := by
    unfold respScalingT T0 Q10
    rw [show ((20 : ℝ) - 30) / 10 = ((-1 : ℤ) : ℝ) by norm_num,
      Real.rpow_intCast]
    norm_num
  simp [olsen_randerson_resp_once, olsen_randerson_resp_once_T0, mean,
    h0, h1, h2]
  norm_num

/-- C7: every element of the downscaled GPP is nonnegative when PAR is
nonnegative with nonzero mean and the coarse GPP is nonnegative, and
every element of the downscaled respiration is nonnegative when the
coarse respiration is nonnegative (the Q10 response is positive). -/
theorem C7_nonnegativity (flux_gpp flux_resp : ℝ) (par temperature : List ℝ)
    (hpar : ∀ p ∈ par, 0 ≤ p) (hm : mean par ≠ 0) (hg : 0 ≤ flux_gpp)
    (hr : 0 ≤ flux_resp) :
    (∀ x ∈ olsen_randerson_gpp_once flux_gpp par, 0 ≤ x) ∧
    (∀ x ∈ olsen_randerson_resp_once flux_resp temperature, 0 ≤ x) := by
  constructor
  · intro x hx
    obtain ⟨p, hp, rfl⟩ := List.mem_map.mp hx
    have hmean : 0 < mean par := (mean_nonneg par hpar).lt_of_ne' hm
    exact mul_nonneg (div_nonneg hg hmean.le) (hpar p hp)
  · intro x hx
    obtain ⟨q, hq, rfl⟩ := List.mem_map.mp hx
    obtain ⟨t, ht, rfl⟩ := List.mem_map.mp hq
    have hT : temperature ≠ [] := List.ne_nil_of_mem ht
    have hmean : 0 < mean (temperature.map (respScalingT T0)) :=
      mean_respScalingT_pos T0 temperature hT
    exact mul_nonneg (div_nonneg hr hmean.le) (respScalingT_pos T0 t).le

/-- Witness for C7 at coarse GPP 2, PAR `[0, 1, 1]`, coarse
respiration 1, temperature `[0, 10, 20]`. -/
theorem C7_nonnegativity_witness :
    (∀ x ∈ olsen_randerson_gpp_once 2 [0, 1, 1], 0 ≤ x) ∧
    (∀ x ∈ olsen_randerson_resp_once 1 [0, 10, 20], 0 ≤ x) :=
  C7_nonnegativity 2 1 [0, 1, 1] [0, 10, 20]
    (by norm_num) (by norm_num [mean]) (by norm_num) (by norm_num)

/-- C8: `olsen_randerson_gpp_once` is invariant under positive
rescaling of PAR: the scale factor cancels between PAR and its mean. -/
theorem C8_par_scale_invariance (flux_gpp c : ℝ) (par : List ℝ)
    (hc : 0 < c) (hm : mean par ≠ 0) :
    olsen_randerson_gpp_once flux_gpp (par.map (fun p => c * p))
      = olsen_randerson_gpp_once flux_gpp par := by
  unfold olsen_randerson_gpp_once
  rw [mean_map_const_mul, List.map_map]
  apply List.map_congr_left
  intro p _
  exact div_scale_cancel flux_gpp c (mean par) p hc.ne'

/-- Witness for C8 at coarse GPP 2, PAR `[0, 1, 1]`, scale 2; both
sides also evaluate to `[0, 3, 3]`. -/
theorem C8_par_scale_invariance_witness :
    olsen_randerson_gpp_once 2 ([0, 1, 1].map (fun p => 2 * p))
      = olsen_randerson_gpp_once 2 [0, 1, 1] ∧
    olsen_randerson_gpp_once 2 [0, 1, 1] = [0, 3, 3] := by
  constructor
  · exact C8_par_scale_invariance 2 2 [0, 1, 1] (by norm_num)
      (by norm_num [mean])
  · simp [olsen_randerson_gpp_once, mean]
    norm_num

/-- C9: the Q10 temperature response of `olsen_randerson_resp_once` is
strictly positive at every element, and for a nonempty temperature
array its leading-axis mean is strictly positive, so the scaler's
division is by a nonzero quantity. -/
theorem C9_resp_scaling_pos (temperature : List ℝ) (h : temperature ≠ []) :
    (∀ q ∈ temperature.map (respScalingT T0), 0 < q) ∧
    0 < mean (temperature.map (respScalingT T0)) := by
  constructor
  · intro q hq
    obtain ⟨t, _, rfl⟩ := List.mem_map.mp hq
    exact respScalingT_pos T0 t
  · exact mean_respScalingT_pos T0 temperature h

/-- Witness for C9 at temperature `[0, 10, 20]`. -/
theorem C9_resp_scaling_pos_witness :
    (∀ q ∈ [(0 : ℝ), 10, 20].map (respScalingT T0), 0 < q) ∧
    0 < mean ([(0 : ℝ), 10, 20].map (respScalingT T0)) :=
  C9_resp_scaling_pos [0, 10, 20] (by simp)

theorem Q10_pos : (0 : ℝ) < Q10 := by
  norm_num [Q10]

/-- Shifting the baseline temperature multiplies the Q10 response by a
constant factor. -/
theorem respScalingT_shift (t0 t : ℝ) :
    respScalingT t0 t = Q10 ^ ((T0 - t0) / 10) * respScalingT T0 t := by
  unfold respScalingT
  rw [← Real.rpow_add Q10_pos]
  rw [show (T0 - t0) / 10 + (t - T0) / 10 = (t - t0) / 10 by ring]

theorem map_respScalingT_shift (t0 : ℝ) (T : List ℝ) :
    T.map (respScalingT t0)
      = (T.map (respScalingT T0)).map
          (fun x => Q10 ^ ((T0 - t0) / 10) * x) := by
  rw [List.map_map]
  apply List.map_congr_left
  intro t _
  exact respScalingT_shift t0 t

theorem rpow_shift_ne_zero (t0 : ℝ) : Q10 ^ ((T0 - t0) / 10) ≠ 0 :=
  (Real.rpow_pos_of_pos Q10_pos _).ne'

/-- The fixed-window respiration scaler does not depend on the
baseline temperature: the constant factor `Q10 ^ ((T0 - t0) / 10)`
cancels between the response and its mean. -/
theorem resp_once_T0_indep (t0 f : ℝ) (T : List ℝ) :
    olsen_randerson_resp_once_T0 t0 f T
      = olsen_randerson_resp_once_T0 T0 f T := by
  simp only [olsen_randerson_resp_once_T0]
  rw [map_respScalingT_shift t0 T, mean_map_const_mul, List.map_map]
  apply List.map_congr_left
  intro q _
  exact div_scale_cancel f _ _ q (rpow_shift_ne_zero t0)

theorem rollingMean30_map_const_mul (c : ℝ) (xs : List ℝ) :
    Fisher.rollingMean30 (xs.map (fun x => c * x))
      = (Fisher.rollingMean30 xs).map (fun x => c * x) := by
  unfold Fisher.rollingMean30
  rw [List.length_map, List.map_map]
  apply List.map_congr_left
  intro i _
  rw [← List.map_take, ← List.map_drop, mean_map_const_mul]
  rfl

theorem zipWith3_map23 {α β γ : Type} (f : α → β → γ → ℝ) (g : β → β)
    (h : γ → γ) : ∀ (as : List α) (bs : List β) (cs : List γ),
    Fisher.zipWith3 f as (bs.map g) (cs.map h)
      = Fisher.zipWith3 (fun a b c => f a (g b) (h c)) as bs cs := by
  intro as
  induction as with
  | nil => intro bs cs; cases bs <;> cases cs <;> simp [Fisher.zipWith3]
  | cons a as ih =>
    intro bs cs
    cases bs with
    | nil => simp [Fisher.zipWith3]
    | cons b bs =>
      cases cs with
      | nil => simp [Fisher.zipWith3]
      | cons c cs => simp [Fisher.zipWith3, ih]

/-- The rolling-window respiration scaler does not depend on the
baseline temperature either: the constant factor scales the response
and its rolling mean alike. -/
theorem downscale_resp_T0_indep (t0 : ℝ) (flux_resp : List (ℕ × ℝ))
    (T : List ℝ) :
    Fisher.downscale_resp_timeseries_T0 t0 flux_resp T
      = Fisher.downscale_resp_timeseries_T0 T0 flux_resp T := by
  simp only [Fisher.downscale_resp_timeseries_T0]
  rw [map_respScalingT_shift t0 T, rollingMean30_map_const_mul,
    zipWith3_map23]
  congr 1
  funext a b c
  exact div_scale_cancel a _ _ c (rpow_shift_ne_zero t0)

/-- C10: both respiration downscalers are independent of the baseline
temperature `T0`: for every baseline `t0` the parametrised scalers
agree with the source functions (which use the module constant
`T0 = 30`). -/
theorem C10_T0_independence (t0 flux_resp : ℝ) (temperature : List ℝ)
    (flux_resp_series : List (ℕ × ℝ)) (fine_temperature : List ℝ) :
    olsen_randerson_resp_once_T0 t0 flux_resp temperature
      = olsen_randerson_resp_once flux_resp temperature ∧
    Fisher.downscale_resp_timeseries_T0 t0 flux_resp_series fine_temperature
      = Fisher.downscale_resp_timeseries flux_resp_series fine_temperature := by
  constructor
  · exact resp_once_T0_indep t0 flux_resp temperature
  · exact downscale_resp_T0_indep t0 flux_resp_series fine_temperature

theorem mean_replicate (n : ℕ) (c : ℝ) (h : n ≠ 0) :
    mean (List.replicate n c) = c := by
  have hn : (n : ℝ) ≠ 0 := Nat.cast_ne_zero.mpr h
  rw [mean, List.sum_replicate, List.length_replicate, nsmul_eq_mul,
    mul_div_cancel_left₀ c hn]

theorem rollingMean30_replicate (n : ℕ) (c : ℝ) :
    Fisher.rollingMean30 (List.replicate n c) = List.replicate n c := by
  unfold Fisher.rollingMean30
  rw [List.length_replicate, List.eq_replicate_iff]
  refine ⟨by simp, ?_⟩
  intro b hb
  obtain ⟨i, hi, rfl⟩ := List.mem_map.mp hb
  rw [List.mem_range] at hi
  rw [List.take_replicate, List.drop_replicate]
  apply mean_replicate
  omega

theorem zipWith3_replicate {α β γ : Type} (f : α → β → γ → ℝ) (n : ℕ)
    (a : α) (b : β) (c : γ) :
    Fisher.zipWith3 f (List.replicate n a) (List.replicate n b)
      (List.replicate n c) = List.replicate n (f a b c) := by
  induction n with
  | zero => simp [Fisher.zipWith3]
  | succ k ih => simp [List.replicate_succ, Fisher.zipWith3, ih]

theorem map_range_const (f : ℕ → ℝ) (c : ℝ) (n : ℕ) (h : ∀ d, f d = c) :
    (List.range n).map f = List.replicate n c := by
  rw [List.eq_replicate_iff]
  refine ⟨by simp, ?_⟩
  intro b hb
  obtain ⟨i, _, rfl⟩ := List.mem_map.mp hb
  exact h i

theorem interpAt_const3 (c : ℝ) (d : ℕ) :
    Fisher.interpAt [(0, c), (30, c), (60, c)] d = c := by
  simp only [Fisher.interpAt]
  split_ifs <;> simp

theorem ffillAt_const3 (c : ℝ) (d : ℕ) :
    Fisher.ffillAt [(0, c), (30, c), (60, c)] d = c := by
  simp only [Fisher.ffillAt]
  split_ifs <;> rfl

theorem resample_const3 (c : ℝ) :
    Fisher.resampleMonthStartFirst [((0 : ℕ), c), (30, c), (60, c)]
      = [(0, c), (30, c), (60, c)] := by
  rfl

theorem respScalingT_T0_30 : respScalingT T0 30 = 1 := by
  unfold respScalingT T0
  rw [show ((30 : ℝ) - 30) / 10 = 0 by norm_num]
  exact Real.rpow_zero _

/-- On a coarse series that is constant `g` at days 0, 30, 60 and PAR
constant 1 on a daily fine index spanning those days, the rolling-
window GPP scaler returns the constant `g`. -/
theorem downscale_gpp_const (g : ℝ) (n : ℕ) :
    Fisher.downscale_gpp_timeseries [(0, g), (30, g), (60, g)]
      (List.replicate n 1) = List.replicate n g := by
  unfold Fisher.downscale_gpp_timeseries
  rw [rollingMean30_replicate, List.length_replicate,
    map_range_const _ g n (interpAt_const3 g), zipWith3_replicate]
  norm_num

/-- Likewise the rolling-window respiration scaler on a constant
coarse series with temperature constantly at the baseline `T0`. -/
theorem downscale_resp_const (r : ℝ) (n : ℕ) :
    Fisher.downscale_resp_timeseries [(0, r), (30, r), (60, r)]
      (List.replicate n 30) = List.replicate n r := by
  simp only [Fisher.downscale_resp_timeseries,
    Fisher.downscale_resp_timeseries_T0]
  rw [List.map_replicate, respScalingT_T0_30, rollingMean30_replicate,
    List.length_replicate, map_range_const _ r n (interpAt_const3 r),
    zipWith3_replicate]
  norm_num

/-- Full evaluation of `downscale_timeseries` on a constant scenario:
coarse NPP constantly `v` and Rh constantly 0 at days 0, 30, 60
(month starts), temperature constantly `T0 = 30` and PAR constantly 1
on the daily fine index of days 0..60.  The coarse net flux is `v` at
every coarse step, yet every fine output value is `-3 * v`: the
combiner forms `flux_resp - flux_gpp = -v` (the sign opposite to its
own `NEE = GPP - Reco = NPP - Rh` docstring and to
`olsen_randerson_once`), and the bias-correction difference then adds
`-v - v = -2 * v` instead of cancelling. -/
theorem downscale_timeseries_const (v : ℝ) :
    Fisher.downscale_timeseries [(0, v), (30, v), (60, v)]
      [(0, 0), (30, 0), (60, 0)] (List.replicate 61 30)
      (List.replicate 61 1) = List.replicate 61 (-3 * v) := by
  have h2 : (2 : ℝ) * v - v + 0 = v := by ring
  simp only [Fisher.downscale_timeseries, NPP_TO_GPP_FACTOR,
    Fisher.coarseZip, List.map_cons, List.map_nil, List.zipWith_cons_cons,
    List.zipWith_nil_right, h2, sub_zero]
  rw [downscale_gpp_const (2 * v) 61, downscale_resp_const v 61,
    List.zipWith_replicate', resample_const3, List.length_replicate,
    map_range_const _ v 61 (ffillAt_const3 v), rollingMean30_replicate,
    rollingMean30_replicate, List.zipWith_replicate',
    List.zipWith_replicate']
  congr 1
  ring

/-- C3: `downscale_timeseries` does not reproduce the coarse net flux
at monthly granularity.  On the constant scenario — coarse NPP 1 and
Rh 0 at the month starts (days 0, 30, 60), temperature constantly 30
and PAR constantly 1 on the daily fine index of days 0..60 — the
output is `-3` at every fine step, so the first month's aggregate is
`-90`, not the `30 * 1` the claim requires: the combiner subtracts
with the sign opposite to `original_nee`, and the bias-correction term
then doubles the discrepancy instead of cancelling it. -/
theorem C3_monthly_aggregate_mismatch :
    Fisher.downscale_timeseries [(0, 1), (30, 1), (60, 1)]
        [(0, 0), (30, 0), (60, 0)] (List.replicate 61 30)
        (List.replicate 61 1) = List.replicate 61 (-3) ∧
    ((List.replicate 61 (-3 : ℝ)).take 30).sum ≠ 30 * 1 := by
  constructor
  · have h := downscale_timeseries_const 1
    norm_num at h
    exact h
  · rw [List.take_replicate]
    norm_num [List.sum_replicate]

/-- C5: the two combiners use opposite sign conventions.  On the same
constant coarse net flux of 1, `olsen_randerson_once` (which returns
`flux_gpp - flux_resp`, positive = uptake) gives `+1` at every fine
step, while `downscale_timeseries` (which returns
`flux_resp - flux_gpp` plus the correction) gives `-3` at every fine
step — the opposite sign, not the sign-flipped form of the same
convention either (that would be `-1`). -/
theorem C5_sign_convention_mismatch :
    olsen_randerson_once 1 0 [30, 30, 30] [1, 1, 1] = [1, 1, 1] ∧
    Fisher.downscale_timeseries [(0, 1), (30, 1), (60, 1)]
        [(0, 0), (30, 0), (60, 0)] (List.replicate 61 30)
        (List.replicate 61 1) = List.replicate 61 (-3) := by
  constructor
  · simp [olsen_randerson_once, olsen_randerson_gpp_once,
      olsen_randerson_resp_once, olsen_randerson_resp_once_T0,
      NPP_TO_GPP_FACTOR, mean, respScalingT_T0_30]
    norm_num
  · have h := downscale_timeseries_const 1
    norm_num at h
    exact h

end OlsenRanderson
